import Mathlib

/-!
Verification of `src/utils/paperwork-migrate.py`, a migration script that
walks a Paperwork archive directory, exports each document directory to a
PDF via the `paperwork-json` CLI, and uploads the PDF with metadata to a
paperless-ngx server.

The script is embedded shallowly: the external collaborators (filesystem,
CLI subprocesses, HTTP server) are oracles in an `Env` record, and a run is
a pure function from the entry list to the trace of observable effects
(subprocess invocations, log messages, uploads) together with an optional
error that aborts the run, mirroring an uncaught Python exception.
-/

namespace PaperworkMigrate

/-- Digit value of an ASCII character. -/
def digitVal (c : Char) : Nat := c.toNat - '0'.toNat

/-- Gregorian leap-year test, as used by Python's `datetime`. -/
def isLeap (y : Nat) : Bool := y % 4 == 0 && (y % 100 != 0 || y % 400 == 0)

/-- Number of days in a month, as enforced by Python's `datetime`. -/
def daysInMonth (y m : Nat) : Nat :=
  if m == 2 then (if isLeap y then 29 else 28)
  else if m == 4 || m == 6 || m == 9 || m == 11 then 30
  else 31

/-- Validity of a (year, month, day) triple for `datetime.datetime`:
year in 1..9999, month 1..12, day within the month. -/
def isValidDate (y m d : Nat) : Bool :=
  1 ≤ y && y ≤ 9999 && 1 ≤ m && m ≤ 12 && 1 ≤ d && d ≤ daysInMonth y m

/-- The day group of CPython's `%d` directive, the `_strptime.py` regex
`3[0-1]|[1-2]\d|0[1-9]|[1-9]| [1-9]` (the last alternative is a
blank-padded day): alternatives tried in order, first match wins (the
group is last in the format, so a syntactic match ends the regex). -/
def matchDay : List Char → Option (Nat × List Char)
  | c1 :: c2 :: rest =>
    if c1 == '3' && (c2 == '0' || c2 == '1') then some (30 + digitVal c2, rest)
    else if (c1 == '1' || c1 == '2') && c2.isDigit then
      some (10 * digitVal c1 + digitVal c2, rest)
    else if c1 == '0' && ('1' ≤ c2 && c2 ≤ '9') then some (digitVal c2, rest)
    else if '1' ≤ c1 && c1 ≤ '9' then some (digitVal c1, c2 :: rest)
    else if c1 == ' ' && ('1' ≤ c2 && c2 ≤ '9') then some (digitVal c2, rest)
    else none
  | [c1] => if '1' ≤ c1 && c1 ≤ '9' then some (digitVal c1, []) else none
  | [] => none

/-- The month group of CPython's `%m` directive, the regex
`1[0-2]|0[1-9]|[1-9]`, composed with the day group: if the day group fails
after a month alternative, the regex engine backtracks to the next month
alternative. Alternative `1[0-2]` (two-digit month 10..12). -/
def monthAlt1 : List Char → Option (Nat × Nat × List Char)
  | c1 :: c2 :: rest =>
    if c1 == '1' && ('0' ≤ c2 && c2 ≤ '2') then
      (matchDay rest).map (fun dr => (10 + digitVal c2, dr.1, dr.2))
    else none
  | _ => none

/-- Month alternative `0[1-9]` (zero-padded month 01..09). -/
def monthAlt2 : List Char → Option (Nat × Nat × List Char)
  | c1 :: c2 :: rest =>
    if c1 == '0' && ('1' ≤ c2 && c2 ≤ '9') then
      (matchDay rest).map (fun dr => (digitVal c2, dr.1, dr.2))
    else none
  | _ => none

/-- Month alternative `[1-9]` (single-digit month). -/
def monthAlt3 : List Char → Option (Nat × Nat × List Char)
  | c1 :: rest =>
    if '1' ≤ c1 && c1 ≤ '9' then
      (matchDay rest).map (fun dr => (digitVal c1, dr.1, dr.2))
    else none
  | [] => none

/-- Month-then-day matching with regex backtracking order. -/
def matchMonthDay (cs : List Char) : Option (Nat × Nat × List Char) :=
  monthAlt1 cs <|> monthAlt2 cs <|> monthAlt3 cs

/-- `datetime.datetime.strptime(s, "%Y%m%d")` as `Option (y, m, d)`:
`%Y` is exactly four digits, then month and day per the regex groups above;
any unconverted trailing data or an invalid calendar date raises
`ValueError`, modelled as `none`. -/
def parseStrptimeYMD (s : String) : Option (Nat × Nat × Nat) :=
  match s.toList with
  | y1 :: y2 :: y3 :: y4 :: rest =>
    if y1.isDigit && y2.isDigit && y3.isDigit && y4.isDigit then
      match matchMonthDay rest with
      | some (m, d, leftover) =>
        if leftover.isEmpty then
          let y := 1000 * digitVal y1 + 100 * digitVal y2 + 10 * digitVal y3 + digitVal y4
          if isValidDate y m d then some (y, m, d) else none
        else none
      | none => none
    else none
  | _ => none

/-- `f.name.split("_")[0]`: the portion of the name before the first
underscore (the whole name when there is none). -/
def splitFirst (s : String) : String :=
  String.mk (s.toList.takeWhile (fun c => c != '_'))

/-- Left-pad the decimal representation of `n` with zeros to width `w`. -/
def padZero (w : Nat) (n : Nat) : String :=
  let s := toString n
  String.mk (List.replicate (w - s.length) '0') ++ s

/-- `doc_date.strftime("%Y-%m-%d")`. -/
def fmtDate (d : Nat × Nat × Nat) : String :=
  padZero 4 d.1 ++ "-" ++ padZero 2 d.2.1 ++ "-" ++ padZero 2 d.2.2

/-- `str.lower()` restricted to ASCII strings, which is all this
development evaluates it on. -/
def pyLower (s : String) : String := String.mk (s.toList.map Char.toLower)

/-- One entry of `os.scandir(pwork_path)`: a name and whether it is a
directory. -/
structure Entry where
  name : String
  isDir : Bool
  deriving DecidableEq, Repr

/-- The script's external collaborators, as oracles:
`tmp_path`; the set of export paths that already exist on disk; the
server's `GET /api/tags/` results as (slug, id) pairs in response order;
the `show` subcommand's labels for a document (`none` models a metadata
document lacking the nested labels field, which raises `KeyError` in the
extraction loop); the filter list printed by the `export` probe; whether
the `POST /api/documents/post_document/` call returns a success status;
and the `--dryrun` flag. -/
structure Env where
  tmpPath : String
  existingExports : List String
  tags : List (String × Nat)
  labels : String → Option (List String)
  filters : String → List String
  uploadOk : String → Bool
  dryrun : Bool

/-- Observable effects of a run, in order of occurrence. -/
inductive Event where
  | skipExisting : String → Event
  | parseDate : String → Event
  | showCmd : String → Event
  | logWarning : String → Event
  | logError : String → Event
  | probeCmd : String → Event
  | exportCmd : String → List String → String → Event
  | upload : String → String → List Nat → Event
  deriving DecidableEq, Repr

/-- `Event.exportCmd` recogniser: an `export` subprocess invoked with an
`--out` output path (the filter probe, which has no `--out`, is
`probeCmd`). -/
def Event.isExport : Event → Bool
  | .exportCmd _ _ _ => true
  | _ => false

/-- `Event.upload` recogniser: an HTTP POST to the ingestion endpoint. -/
def Event.isUpload : Event → Bool
  | .upload _ _ _ => true
  | _ => false

/-- Errors that abort the run (uncaught Python exceptions). -/
inductive RunError where
  | dateParse : String → RunError
  | fileNotFound : String → RunError
  | uploadFailed : String → RunError
  deriving DecidableEq, Repr

/-- `tpath.joinpath(f"./{f.name}.pdf")`: the deterministic export path for
an entry. -/
def exportPathOf (env : Env) (e : Entry) : String :=
  env.tmpPath ++ "/" ++ e.name ++ ".pdf"

/-- One step of `tag_ids[tag["slug"]] = tag["id"]`: Python dict assignment
(overwrite an existing key in place, else append). -/
def dictInsert (d : List (String × Nat)) (k : String) (v : Nat) :
    List (String × Nat) :=
  if d.any (fun p => p.1 == k) then
    d.map (fun p => if p.1 == k then (k, v) else p)
  else d ++ [(k, v)]

/-- The `tag_ids` dict: `for tag in rsp.json()["results"]:
tag_ids[tag["slug"]] = tag["id"]`. The slug is used verbatim as the key. -/
def buildTagIds (results : List (String × Nat)) : List (String × Nat) :=
  results.foldl (fun d t => dictInsert d t.1 t.2) []

/-- Python dict lookup (`tag_ids[k]` guarded by `k in tag_ids`), as an
`Option`. -/
def dictLookup (d : List (String × Nat)) (k : String) : Option Nat :=
  (d.find? (fun p => p.1 == k)).map (fun p => p.2)

/-- The `payload_tags` loop: for each label in order, if its lowercased
form is a key of `tag_ids`, append the mapped id; otherwise drop it. -/
def payloadTags (tagIds : List (String × Nat)) (labels : List String) :
    List Nat :=
  labels.foldl
    (fun acc label =>
      match dictLookup tagIds (pyLower label) with
      | some tid => acc ++ [tid]
      | none => acc)
    []

/-- The `if not dryrun:` block (script lines 190-214): compute the payload
tags, `open(export_path, "rb")` — which raises `FileNotFoundError` when no
export file was produced — then POST; a non-success response raises
`RuntimeError`. `produced` says whether this entry's export branch wrote
the file (the skip check already ruled out a pre-existing one). -/
def uploadStep (env : Env) (e : Entry) (d : Nat × Nat × Nat)
    (labels : List String) (produced : Bool) : List Event × Option RunError :=
  if env.dryrun then ([], none)
  else
    let path := exportPathOf env e
    if produced then
      let ev := Event.upload path (fmtDate d)
        (payloadTags (buildTagIds env.tags) labels)
      if env.uploadOk e.name then ([ev], none)
      else ([ev], some (.uploadFailed path))
    else ([], some (.fileNotFound path))

/-- The filter branch (script lines 152-188): prefer `unmodified_pdf`
alone, else the `doc_to_pages`/`img_boxes`/`generated_pdf` chain, else log
an error and produce no file (the `raise` there is commented out).
Returns the events and whether an export file was produced. -/
def exportStep (env : Env) (e : Entry) : List Event × Bool :=
  let filters := env.filters e.name
  let path := exportPathOf env e
  if "unmodified_pdf" ∈ filters then
    ([.exportCmd e.name ["unmodified_pdf"] path], true)
  else if "doc_to_pages" ∈ filters then
    ([.exportCmd e.name ["doc_to_pages", "img_boxes", "generated_pdf"] path],
      true)
  else
    ([.logError ("Unknown filters for " ++ e.name)], false)

/-- Processing from the filter probe onward, given the parsed date and the
extracted labels. -/
def afterLabels (env : Env) (e : Entry) (d : Nat × Nat × Nat)
    (labels : List String) : List Event × Option RunError :=
  let ex := exportStep env e
  let up := uploadStep env e d labels ex.2
  (Event.probeCmd e.name :: ex.1 ++ up.1, up.2)

/-- Processing of one scandir entry (script lines 110-214): non-directories
are ignored; an existing export path short-circuits with `continue`;
`strptime` failure aborts; the `show` subprocess runs, with a missing
labels field logged as a warning and an empty list used; then the filter
probe, export branch, and (unless dry-run) the upload block. -/
def processEntry (env : Env) (e : Entry) : List Event × Option RunError :=
  if e.isDir then
    if exportPathOf env e ∈ env.existingExports then
      ([.skipExisting e.name], none)
    else
      match parseStrptimeYMD (splitFirst e.name) with
      | none => ([.parseDate e.name], some (.dateParse e.name))
      | some d =>
        match env.labels e.name with
        | none =>
          let r := afterLabels env e d []
          (Event.parseDate e.name :: Event.showCmd e.name ::
            Event.logWarning ("No labels for " ++ e.name) :: r.1, r.2)
        | some ls =>
          let r := afterLabels env e d ls
          (Event.parseDate e.name :: Event.showCmd e.name :: r.1, r.2)
  else ([], none)

/-- The main loop over the scandir entries: stop at the first error
(uncaught exception), otherwise concatenate the traces. -/
def runEntries (env : Env) : List Entry → List Event × Option RunError
  | [] => ([], none)
  | e :: es =>
    let r := processEntry env e
    match r.2 with
    | some er => (r.1, some er)
    | none =>
      let rest := runEntries env es
      (r.1 ++ rest.1, rest.2)

/-- Modelled from the claim's words, for comparison with the code's
parsing: a valid `YYYYMMDD` date string is exactly eight digits — four for
the year, two (zero-padded) for the month, two (zero-padded) for the day —
denoting a real calendar date. -/
def isValidYYYYMMDD (s : String) : Bool :=
  match s.toList with
  | [y1, y2, y3, y4, m1, m2, d1, d2] =>
    [y1, y2, y3, y4, m1, m2, d1, d2].all Char.isDigit &&
      isValidDate
        (1000 * digitVal y1 + 100 * digitVal y2 + 10 * digitVal y3
          + digitVal y4)
        (10 * digitVal m1 + digitVal m2) (10 * digitVal d1 + digitVal d2)
  | _ => false

/-! ## Concrete environments and entries, used to evaluate the model at
specific inputs -/

/-- An archive directory entry named `20220101_doc`. -/
def entryDoc : Entry := { name := "20220101_doc", isDir := true }

/-- A plain (non-directory) archive entry. -/
def entryFile : Entry := { name := "notes.txt", isDir := false }

/-- An entry whose date prefix `202211` is not an eight-digit `YYYYMMDD`
string. -/
def entryShortDate : Entry := { name := "202211_doc", isDir := true }

/-- An entry whose date prefix does not parse at all. -/
def entryBadDate : Entry := { name := "baddate_doc", isDir := true }

/-- An entry whose date prefix `20221 1` uses the blank-padded day form of
`%d` and so is not an eight-digit `YYYYMMDD` string either. -/
def entrySpaceDate : Entry := { name := "20221 1_doc", isDir := true }

/-- A server/tool environment where the probe reports only an unknown
filter, with a non-dry run. -/
def envUnknownFilters : Env where
  tmpPath := "/tmp"
  existingExports := []
  tags := []
  labels := fun _ => some []
  filters := fun _ => ["png_pages"]
  uploadOk := fun _ => true
  dryrun := false

/-- An environment whose export directory already holds
`20220101_doc.pdf`. -/
def envSkip : Env where
  tmpPath := "/tmp"
  existingExports := ["/tmp/20220101_doc.pdf"]
  tags := []
  labels := fun _ => some []
  filters := fun _ => ["unmodified_pdf"]
  uploadOk := fun _ => true
  dryrun := false

/-- An environment with two server tags, two document labels (one
matching, one unknown), and both known filters available. -/
def envUpload : Env where
  tmpPath := "/tmp"
  existingExports := []
  tags := [("invoice", 3), ("receipt", 7)]
  labels := fun _ => some ["Invoice", "unknown-label"]
  filters := fun _ => ["unmodified_pdf", "doc_to_pages"]
  uploadOk := fun _ => true
  dryrun := false

/-- An environment where the probe reports only the page-based filter. -/
def envPages : Env where
  tmpPath := "/tmp"
  existingExports := []
  tags := []
  labels := fun _ => some []
  filters := fun _ => ["doc_to_pages"]
  uploadOk := fun _ => true
  dryrun := false

/-- An environment whose `show` metadata lacks the labels field. -/
def envNoLabels : Env where
  tmpPath := "/tmp"
  existingExports := []
  tags := []
  labels := fun _ => none
  filters := fun _ => ["unmodified_pdf"]
  uploadOk := fun _ => true
  dryrun := false

/-- A dry-run environment with the unmodified-PDF filter available. -/
def envDryExport : Env where
  tmpPath := "/tmp"
  existingExports := []
  tags := []
  labels := fun _ => some []
  filters := fun _ => ["unmodified_pdf"]
  uploadOk := fun _ => true
  dryrun := true

/-! ## Helper lemmas -/

/-- The `payload_tags` accumulation loop is a `filterMap` over the labels:
lowercase each label, look it up, drop the misses. -/
theorem payloadTags_eq_filterMap (tagIds : List (String × Nat))
    (labels : List String) :
    payloadTags tagIds labels
      = labels.filterMap (fun l => dictLookup tagIds (pyLower l)) := by
  suffices h : ∀ acc : List Nat,
      labels.foldl
        (fun acc label =>
          match dictLookup tagIds (pyLower label) with
          | some tid => acc ++ [tid]
          | none => acc)
        acc
      = acc ++ labels.filterMap (fun l => dictLookup tagIds (pyLower l)) by
    simpa [payloadTags] using h []
  induction labels with
  | nil => intro acc; simp
  | cons l ls ih =>
    intro acc
    simp only [List.foldl_cons, List.filterMap_cons]
    cases h : dictLookup tagIds (pyLower l) with
    | none => simp only []; rw [ih]
    | some tid => simp only []; rw [ih]; simp

/-- The upload block emits no export subprocess invocation. -/
theorem uploadStep_filter_export (env : Env) (e : Entry) (d : Nat × Nat × Nat)
    (ls : List String) (b : Bool) :
    ((uploadStep env e d ls b).1).filter Event.isExport = [] := by
  unfold uploadStep
  by_cases hdry : env.dryrun = true
  · simp [hdry]
  · rw [if_neg hdry]
    by_cases hb : b = true
    · rw [if_pos hb]
      by_cases hok : env.uploadOk e.name = true <;>
        simp [hok, Event.isExport]
    · simp [hb]

/-- The filter branch emits no HTTP upload. -/
theorem exportStep_filter_upload (env : Env) (e : Entry) :
    ((exportStep env e).1).filter Event.isUpload = [] := by
  unfold exportStep
  by_cases h1 : "unmodified_pdf" ∈ env.filters e.name <;>
    by_cases h2 : "doc_to_pages" ∈ env.filters e.name <;>
      simp [h1, h2, Event.isUpload]

/-- If the upload block emits an upload event, its tag list is the
`payload_tags` computed from the entry's labels. -/
theorem uploadStep_mem (env : Env) (e : Entry) (d : Nat × Nat × Nat)
    (ls : List String) (b : Bool) (p c : String) (ts : List Nat)
    (h : Event.upload p c ts ∈ (uploadStep env e d ls b).1) :
    ts = payloadTags (buildTagIds env.tags) ls := by
  unfold uploadStep at h
  by_cases hdry : env.dryrun = true
  · simp [hdry] at h
  · rw [if_neg hdry] at h
    by_cases hb : b = true
    · rw [if_pos hb] at h
      by_cases hok : env.uploadOk e.name = true <;>
        simp [hok] at h <;> exact h.2.2
    · simp [hb] at h

/-- The filter branch emits no upload event. -/
theorem exportStep_no_upload (env : Env) (e : Entry) (p c : String)
    (ts : List Nat) : Event.upload p c ts ∉ (exportStep env e).1 := by
  unfold exportStep
  by_cases h1 : "unmodified_pdf" ∈ env.filters e.name <;>
    by_cases h2 : "doc_to_pages" ∈ env.filters e.name <;>
      simp [h1, h2]

/-- If processing after label extraction emits an upload event, its tag
list is the `payload_tags` of the extracted labels. -/
theorem afterLabels_mem (env : Env) (e : Entry) (d : Nat × Nat × Nat)
    (ls : List String) (p c : String) (ts : List Nat)
    (h : Event.upload p c ts ∈ (afterLabels env e d ls).1) :
    ts = payloadTags (buildTagIds env.tags) ls := by
  simp only [afterLabels, List.mem_cons, List.mem_append] at h
  rcases h with (h | h) | h
  · exact absurd h (by simp)
  · exact absurd h (exportStep_no_upload env e p c ts)
  · exact uploadStep_mem env e d ls _ p c ts h

/-- Every upload event emitted while processing an entry carries the
`payload_tags` of that entry's labels (empty when the labels field is
missing). -/
theorem processEntry_upload_tags (env : Env) (e : Entry) (p c : String)
    (ts : List Nat) (h : Event.upload p c ts ∈ (processEntry env e).1) :
    ts = payloadTags (buildTagIds env.tags) ((env.labels e.name).getD []) := by
  unfold processEntry at h
  by_cases hdir : e.isDir = true
  · rw [if_pos hdir] at h
    by_cases hex : exportPathOf env e ∈ env.existingExports
    · rw [if_pos hex] at h; simp at h
    · rw [if_neg hex] at h
      cases hp : parseStrptimeYMD (splitFirst e.name) with
      | none => rw [hp] at h; simp at h
      | some d =>
        rw [hp] at h
        cases hl : env.labels e.name with
        | none =>
          rw [hl] at h
          simp only [List.mem_cons] at h
          rcases h with h | h | h | h
          · simp at h
          · simp at h
          · simp at h
          · simpa using afterLabels_mem env e d [] p c ts h
        | some ls =>
          rw [hl] at h
          simp only [List.mem_cons] at h
          rcases h with h | h | h
          · simp at h
          · simp at h
          · simpa using afterLabels_mem env e d ls p c ts h
  · rw [if_neg hdir] at h; simp at h

/-- The export subprocess invocations of an entry, in closed form: none
for non-directories, skipped entries, and failed date parses; otherwise
exactly the filter branch's. -/
theorem processEntry_filter_export_eq (env : Env) (e : Entry) :
    ((processEntry env e).1).filter Event.isExport
      = (if e.isDir = true then
          (if exportPathOf env e ∈ env.existingExports then []
           else
            match parseStrptimeYMD (splitFirst e.name) with
            | none => []
            | some _ => ((exportStep env e).1).filter Event.isExport)
         else []) := by
  unfold processEntry
  by_cases hdir : e.isDir = true
  · rw [if_pos hdir, if_pos hdir]
    by_cases hex : exportPathOf env e ∈ env.existingExports
    · rw [if_pos hex, if_pos hex]; simp [Event.isExport]
    · rw [if_neg hex, if_neg hex]
      cases hp : parseStrptimeYMD (splitFirst e.name) with
      | none => simp [Event.isExport]
      | some d =>
        cases hl : env.labels e.name <;>
          simp [afterLabels, Event.isExport, List.filter_append,
            uploadStep_filter_export]
  · rw [if_neg hdir, if_neg hdir]; simp

/-- In dry-run mode an entry emits no upload event. -/
theorem processEntry_filter_upload_dryrun (env : Env) (e : Entry)
    (hdry : env.dryrun = true) :
    ((processEntry env e).1).filter Event.isUpload = [] := by
  unfold processEntry
  by_cases hdir : e.isDir = true
  · rw [if_pos hdir]
    by_cases hex : exportPathOf env e ∈ env.existingExports
    · rw [if_pos hex]; simp [Event.isUpload]
    · rw [if_neg hex]
      cases hp : parseStrptimeYMD (splitFirst e.name) with
      | none => simp [Event.isUpload]
      | some d =>
        cases hl : env.labels e.name <;>
          simp [afterLabels, Event.isUpload, List.filter_append,
            exportStep_filter_upload, uploadStep, hdry]
  · rw [if_neg hdir]; simp

/-- In dry-run mode a whole run emits no upload event. -/
theorem runEntries_filter_upload_dryrun (env : Env) (hdry : env.dryrun = true)
    (es : List Entry) :
    ((runEntries env es).1).filter Event.isUpload = [] := by
  induction es with
  | nil => rfl
  | cons e es ih =>
    simp only [runEntries]
    cases hr : (processEntry env e).2 with
    | none =>
      simp [hr, List.filter_append, ih,
        processEntry_filter_upload_dryrun env e hdry]
    | some er => simp [hr, processEntry_filter_upload_dryrun env e hdry]

/-- Overwriting the value at key `k` leaves key membership for any other
key `s` unchanged. -/
theorem map_overwrite_keys (d : List (String × Nat)) (k : String) (v : Nat)
    (s : String) (hks : (k == s) = false) :
    ((d.map fun p => if p.1 == k then (k, v) else p).any fun p => p.1 == s)
      = (d.any fun p => p.1 == s) := by
  induction d with
  | nil => rfl
  | cons a as ih =>
    simp only [List.map_cons, List.any_cons, ih]
    congr 1
    by_cases hak : (a.1 == k) = true
    · rw [if_pos hak, eq_of_beq hak, hks]
    · rw [if_neg hak]

/-- Python dict assignment adds exactly the key `k` to the key set. -/
theorem dictInsert_keys (d : List (String × Nat)) (k : String) (v : Nat)
    (s : String) :
    ((dictInsert d k v).any fun p => p.1 == s)
      = ((d.any fun p => p.1 == s) || (k == s)) := by
  unfold dictInsert
  by_cases hk : (d.any fun p => p.1 == k) = true
  · rw [if_pos hk]
    by_cases hks : (k == s) = true
    · rw [hks, Bool.or_true]
      rw [List.any_eq_true] at hk ⊢
      obtain ⟨p, hp, hpk⟩ := hk
      refine ⟨(k, v), List.mem_map.mpr ⟨p, hp, by rw [if_pos hpk]⟩, hks⟩
    · rw [map_overwrite_keys d k v s (Bool.not_eq_true _ ▸ hks),
        Bool.eq_false_iff.mpr hks, Bool.or_false]
  · rw [if_neg hk, List.any_append, List.any_cons, List.any_nil, Bool.or_false]

/-- The key set of the `tag_ids` dict is exactly the verbatim slugs of the
server's results. -/
theorem buildTagIds_keys_aux (results : List (String × Nat))
    (acc : List (String × Nat)) (s : String) :
    (((results.foldl (fun d t => dictInsert d t.1 t.2) acc).any
        fun p => p.1 == s))
      = ((acc.any fun p => p.1 == s) || (results.any fun t => t.1 == s)) := by
  induction results generalizing acc with
  | nil => simp
  | cons t ts ih =>
    simp only [List.foldl_cons, List.any_cons, ih, dictInsert_keys,
      Bool.or_assoc]

/-! ## Claims -/

/-- C1: the claim says that for a document whose filter probe reports
neither `unmodified_pdf` nor `doc_to_pages`, no export subprocess with an
output path is invoked (true) and the run proceeds to the next entry
without raising (false in a non-dry run). This theorem evaluates the code
at the failing input: entry `20220101_doc` with probe result
`["png_pages"]` in a non-dry run. No export subprocess with `--out` runs
and no POST is issued, but the upload block's `open(export_path, "rb")`
raises `FileNotFoundError`, aborting the run; only under `--dryrun` does
processing continue. The `logger.error` and the commented-out `raise` on
the unknown-filters branch show the intent was to continue, so this is a
slip in the code, not in the claim. -/
theorem claim_C1_unknown_filters_upload_aborts :
    ((processEntry envUnknownFilters entryDoc).1).filter Event.isExport = []
    ∧ ((processEntry envUnknownFilters entryDoc).1).filter Event.isUpload = []
    ∧ (processEntry envUnknownFilters entryDoc).2
        = some (.fileNotFound "/tmp/20220101_doc.pdf")
    ∧ (processEntry { envUnknownFilters with dryrun := true } entryDoc).2
        = none := by
  decide

/-- C2: an entry whose deterministic export path already exists is skipped
entirely: its trace is exactly the skip message — so no date parsing, no
`show` subprocess, no filter probe, no export subprocess, and no upload —
no error is raised, and the run continues with the remaining entries. -/
theorem claim_C2_skip_existing (env : Env) (e : Entry) (es : List Entry)
    (h1 : e.isDir = true)
    (h2 : exportPathOf env e ∈ env.existingExports) :
    processEntry env e = ([.skipExisting e.name], none)
    ∧ runEntries env (e :: es)
        = (Event.skipExisting e.name :: (runEntries env es).1,
            (runEntries env es).2) := by
  have hpe : processEntry env e = ([.skipExisting e.name], none) := by
    unfold processEntry; rw [if_pos h1, if_pos h2]
  refine ⟨hpe, ?_⟩
  simp [runEntries, hpe]

/-- Witness for C2 at `envSkip` and `20220101_doc`. -/
theorem claim_C2_skip_existing_witness :
    (entryDoc.isDir = true
      ∧ exportPathOf envSkip entryDoc ∈ envSkip.existingExports)
    ∧ processEntry envSkip entryDoc
        = ([.skipExisting "20220101_doc"], none) :=
  ⟨⟨rfl, by decide⟩,
    (claim_C2_skip_existing envSkip entryDoc [] rfl (by decide)).1⟩

/-- C3: every upload payload's tag list is exactly the labels lowercased
in order, looked up by exact match in the tag mapping, with misses
silently dropped; concretely, with the mapping built from slugs
invoice to 3 and receipt to 7 and labels Invoice, unknown-label, the
payload tag list is `[3]`. -/
theorem claim_C3_payload_tags :
    (∀ (env : Env) (e : Entry) (p c : String) (ts : List Nat),
        Event.upload p c ts ∈ (processEntry env e).1 →
          ts = ((env.labels e.name).getD []).filterMap
            (fun l => dictLookup (buildTagIds env.tags) (pyLower l)))
    ∧ payloadTags (buildTagIds [("invoice", 3), ("receipt", 7)])
        ["Invoice", "unknown-label"] = [3] := by
  refine ⟨fun env e p c ts h => ?_, by decide⟩
  rw [← payloadTags_eq_filterMap]
  exact processEntry_upload_tags env e p c ts h

/-- Witness for C3 at `envUpload` and `20220101_doc`: the emitted upload
carries exactly tag list `[3]`. -/
theorem claim_C3_payload_tags_witness :
    Event.upload "/tmp/20220101_doc.pdf" "2022-01-01" [3]
        ∈ (processEntry envUpload entryDoc).1
    ∧ [3] = ((envUpload.labels entryDoc.name).getD []).filterMap
        (fun l => dictLookup (buildTagIds envUpload.tags) (pyLower l)) :=
  ⟨by decide,
    claim_C3_payload_tags.1 envUpload entryDoc "/tmp/20220101_doc.pdf"
      "2022-01-01" [3] (by decide)⟩

/-- C4: when the probe result contains `unmodified_pdf`, the export
subprocess is invoked with exactly that single filter and the destination
path — and the three-stage chain is never used — regardless of whether
`doc_to_pages` is also present. -/
theorem claim_C4_unmodified_pdf (env : Env) (e : Entry)
    (h1 : e.isDir = true)
    (h2 : exportPathOf env e ∉ env.existingExports)
    (d : Nat × Nat × Nat)
    (h3 : parseStrptimeYMD (splitFirst e.name) = some d)
    (h4 : "unmodified_pdf" ∈ env.filters e.name) :
    ((processEntry env e).1).filter Event.isExport
      = [Event.exportCmd e.name ["unmodified_pdf"] (exportPathOf env e)] := by
  rw [processEntry_filter_export_eq, if_pos h1, if_neg h2, h3]
  simp [exportStep, h4, Event.isExport]

/-- Witness for C4 at `envUpload`, where the probe also reports
`doc_to_pages`. -/
theorem claim_C4_unmodified_pdf_witness :
    ("unmodified_pdf" ∈ envUpload.filters entryDoc.name
      ∧ "doc_to_pages" ∈ envUpload.filters entryDoc.name)
    ∧ ((processEntry envUpload entryDoc).1).filter Event.isExport
        = [Event.exportCmd "20220101_doc" ["unmodified_pdf"]
            "/tmp/20220101_doc.pdf"] :=
  ⟨by decide,
    claim_C4_unmodified_pdf envUpload entryDoc rfl (by decide) (2022, 1, 1)
      (by decide) (by decide)⟩

/-- C5: when the probe result contains `doc_to_pages` but not
`unmodified_pdf`, the export subprocess is invoked with exactly the three
filters `doc_to_pages`, `img_boxes`, `generated_pdf` in that order,
together with the destination path. -/
theorem claim_C5_doc_to_pages (env : Env) (e : Entry)
    (h1 : e.isDir = true)
    (h2 : exportPathOf env e ∉ env.existingExports)
    (d : Nat × Nat × Nat)
    (h3 : parseStrptimeYMD (splitFirst e.name) = some d)
    (h4 : "unmodified_pdf" ∉ env.filters e.name)
    (h5 : "doc_to_pages" ∈ env.filters e.name) :
    ((processEntry env e).1).filter Event.isExport
      = [Event.exportCmd e.name ["doc_to_pages", "img_boxes", "generated_pdf"]
          (exportPathOf env e)] := by
  rw [processEntry_filter_export_eq, if_pos h1, if_neg h2, h3]
  simp [exportStep, h4, h5, Event.isExport]

/-- Witness for C5 at `envPages`. -/
theorem claim_C5_doc_to_pages_witness :
    ("unmodified_pdf" ∉ envPages.filters entryDoc.name
      ∧ "doc_to_pages" ∈ envPages.filters entryDoc.name)
    ∧ ((processEntry envPages entryDoc).1).filter Event.isExport
        = [Event.exportCmd "20220101_doc"
            ["doc_to_pages", "img_boxes", "generated_pdf"]
            "/tmp/20220101_doc.pdf"] :=
  ⟨⟨by decide, by decide⟩,
    claim_C5_doc_to_pages envPages entryDoc rfl (by decide) (2022, 1, 1)
      (by decide) (by decide) (by decide)⟩

/-- C6: with the dry-run flag set, a whole run issues no HTTP POST to the
ingestion endpoint, while any given entry's export subprocess invocations
— and hence the export file it produces — are exactly those of the same
entry in a non-dry run. -/
theorem claim_C6_dryrun (env : Env) (es : List Entry) (e : Entry) :
    ((runEntries { env with dryrun := true } es).1).filter Event.isUpload = []
    ∧ ((processEntry { env with dryrun := true } e).1).filter Event.isExport
        = ((processEntry { env with dryrun := false } e).1).filter
            Event.isExport := by
  refine ⟨runEntries_filter_upload_dryrun _ rfl es, ?_⟩
  rw [processEntry_filter_export_eq, processEntry_filter_export_eq]
  rfl

/-- C7 counterexample: the code stores the slug verbatim
(`tag_ids[tag["slug"]] = tag["id"]`, no lowercasing), so for a server tag
with slug `Invoice` the mapping's key is `Invoice`, not the lowercased
`invoice`, and a label lookup by lowercased label name misses a tag whose
slug differs only in letter case — refuting the claim at this input. -/
theorem claim_C7_counterexample :
    buildTagIds [("Invoice", 3)] = [("Invoice", 3)]
    ∧ pyLower "Invoice" = "invoice"
    ∧ dictLookup (buildTagIds [("Invoice", 3)]) "invoice" = none
    ∧ payloadTags (buildTagIds [("Invoice", 3)]) ["Invoice"] = [] := by
  decide

/-- C7 as amended: the tag mapping's key for every tag is its slug
verbatim — a string is a key of the mapping exactly when it is the slug of
some returned tag, with no lowercasing or other normalization applied. -/
theorem claim_C7_amended (results : List (String × Nat)) (s : String) :
    ((buildTagIds results).any fun p => p.1 == s)
      = (results.any fun t => t.1 == s) := by
  unfold buildTagIds
  rw [buildTagIds_keys_aux]
  simp

/-- C8: a missing labels field is non-fatal: the entry's trace is the
`show` invocation followed by a warning, and processing then continues
exactly as for a document whose label list is empty — in particular any
upload it emits carries an empty tag list. -/
theorem claim_C8_missing_labels (env : Env) (e : Entry)
    (h1 : e.isDir = true)
    (h2 : exportPathOf env e ∉ env.existingExports)
    (d : Nat × Nat × Nat)
    (h3 : parseStrptimeYMD (splitFirst e.name) = some d)
    (h4 : env.labels e.name = none) :
    processEntry env e
      = (Event.parseDate e.name :: Event.showCmd e.name ::
          Event.logWarning ("No labels for " ++ e.name) ::
            (afterLabels env e d []).1,
          (afterLabels env e d []).2)
    ∧ (∀ p c ts, Event.upload p c ts ∈ (processEntry env e).1 → ts = [])
    := by
  constructor
  · unfold processEntry
    rw [if_pos h1, if_neg h2, h3, h4]
  · intro p c ts h
    have hts := processEntry_upload_tags env e p c ts h
    rw [h4] at hts
    simpa [payloadTags] using hts

/-- Witness for C8 at `envNoLabels`. -/
theorem claim_C8_missing_labels_witness :
    envNoLabels.labels entryDoc.name = none
    ∧ processEntry envNoLabels entryDoc
        = (Event.parseDate "20220101_doc" :: Event.showCmd "20220101_doc" ::
            Event.logWarning "No labels for 20220101_doc" ::
              (afterLabels envNoLabels entryDoc (2022, 1, 1) []).1,
            (afterLabels envNoLabels entryDoc (2022, 1, 1) []).2) :=
  ⟨rfl,
    (claim_C8_missing_labels envNoLabels entryDoc rfl (by decide) (2022, 1, 1)
      (by decide) rfl).1⟩

/-- C9: an archive entry that is not a directory is ignored entirely — its
own processing is the empty trace with no error, and removing it from the
entry list leaves the run's trace and outcome unchanged. -/
theorem claim_C9_non_directory (env : Env) (xs ys : List Entry) (e : Entry)
    (h : e.isDir = false) :
    processEntry env e = ([], none)
    ∧ runEntries env (xs ++ e :: ys) = runEntries env (xs ++ ys) := by
  have hpe : processEntry env e = ([], none) := by
    unfold processEntry
    rw [if_neg (by simp [h])]
  refine ⟨hpe, ?_⟩
  induction xs with
  | nil => simp [runEntries, hpe]
  | cons a as ih =>
    simp only [List.cons_append, runEntries]
    cases hr : (processEntry env a).2 <;> simp [hr, ih]

/-- Witness for C9: a plain file between two directory entries. -/
theorem claim_C9_non_directory_witness :
    entryFile.isDir = false
    ∧ runEntries envDryExport [entryDoc, entryFile, entryShortDate]
        = runEntries envDryExport [entryDoc, entryShortDate] :=
  ⟨rfl,
    (claim_C9_non_directory envDryExport [entryDoc] [entryShortDate]
      entryFile rfl).2⟩

/-- C10 counterexample: the claim reads line 118 as raising for every
prefix that is not a valid `YYYYMMDD` string, but Python's `%Y%m%d` also
accepts one-digit months and one-digit or blank-padded days: for the
entry `202211_doc` the prefix `202211` is not a valid eight-digit
`YYYYMMDD` string, yet `strptime` parses it as 2022-01-01 and the run
proceeds through metadata extraction and export with no error; likewise
for `20221 1_doc`, whose prefix `20221 1` uses the blank-padded day. -/
theorem claim_C10_counterexample :
    (isValidYYYYMMDD (splitFirst "202211_doc") = false
      ∧ parseStrptimeYMD (splitFirst "202211_doc") = some (2022, 1, 1)
      ∧ (processEntry envDryExport entryShortDate).2 = none
      ∧ Event.showCmd "202211_doc"
          ∈ (processEntry envDryExport entryShortDate).1)
    ∧ (isValidYYYYMMDD (splitFirst "20221 1_doc") = false
      ∧ parseStrptimeYMD (splitFirst "20221 1_doc") = some (2022, 1, 1)
      ∧ (processEntry envDryExport entrySpaceDate).2 = none
      ∧ Event.showCmd "20221 1_doc"
          ∈ (processEntry envDryExport entrySpaceDate).1) := by
  decide

/-- C10 as amended: for every not-yet-migrated archive subdirectory whose
name's portion before the first underscore fails to parse under
`strptime`'s `%Y%m%d` format (four year digits, then a month and day per
that format's regex alternatives — a one- or two-digit month, a one- or
two-digit or blank-padded day — with no trailing characters, denoting a
real calendar date), the run raises and aborts the entire batch before
any metadata extraction, export, or upload is attempted. -/
theorem claim_C10_bad_date_aborts (env : Env) (e : Entry) (es : List Entry)
    (h1 : e.isDir = true)
    (h2 : exportPathOf env e ∉ env.existingExports)
    (h3 : parseStrptimeYMD (splitFirst e.name) = none) :
    processEntry env e = ([Event.parseDate e.name], some (.dateParse e.name))
    ∧ runEntries env (e :: es)
        = ([Event.parseDate e.name], some (.dateParse e.name)) := by
  have hpe : processEntry env e
      = ([Event.parseDate e.name], some (.dateParse e.name)) := by
    unfold processEntry
    rw [if_pos h1, if_neg h2, h3]
  exact ⟨hpe, by simp [runEntries, hpe]⟩

/-- Witness for C10 as amended, at the entry `baddate_doc` followed by a
well-formed entry that is consequently never processed. -/
theorem claim_C10_bad_date_aborts_witness :
    parseStrptimeYMD (splitFirst "baddate_doc") = none
    ∧ runEntries envDryExport [entryBadDate, entryDoc]
        = ([Event.parseDate "baddate_doc"],
            some (.dateParse "baddate_doc")) :=
  ⟨by decide,
    (claim_C10_bad_date_aborts envDryExport entryBadDate [entryDoc] rfl
      (by decide) (by decide)).2⟩

end PaperworkMigrate
